import Mathlib

/-!
Verification development for `src/fix_chat_history.py`, a tool that repairs
the chat-session index of VS Code workspaces.  The Python source is embedded
shallowly: pure helpers become Lean functions, the filesystem and the
embedded key-value database become explicit state records, and fallible
reads become `Option` values.  Machine strings are modelled by `String`
with list-of-character primitives so that every definition evaluates.
-/

namespace FixChatHistory

/-! ### Python string primitives

Python operates on sequences of code points; `String.data` is exactly that
sequence, so the embeddings below work on `List Char` directly. -/

/-- Length of a Python string, counted in code points (`len(s)`). -/
def pyLen (s : String) : Nat := s.data.length

/-- Python slicing `s[:n]`: the first `n` code points. -/
def pyTake (s : String) (n : Nat) : String := String.mk (s.data.take n)

/-- Python slicing `s[n:]`: drop the first `n` code points. -/
def pyDrop (s : String) (n : Nat) : String := String.mk (s.data.drop n)

/-- Python `s.strip()`: remove whitespace from both ends. -/
def pyStrip (s : String) : String :=
  String.mk (((s.data.dropWhile Char.isWhitespace).reverse.dropWhile Char.isWhitespace).reverse)

/-- Python `s.lower()`: lowercase every character. -/
def pyLower (s : String) : String := String.mk (s.data.map Char.toLower)

/-- Python `s.startswith(pre)`. -/
def pyStartsWith (s pre : String) : Bool := pre.data.isPrefixOf s.data

/-- Python string comparison `a <= b`: lexicographic on code points. -/
def charListLe : List Char → List Char → Bool
  | [], _ => true
  | _ :: _, [] => false
  | a :: as, b :: bs =>
    if a.toNat < b.toNat then true
    else if b.toNat < a.toNat then false
    else charListLe as bs

/-- Boolean `a <= b` on Python strings. -/
def strLeB (a b : String) : Bool := charListLe a.data b.data

/-- Insert a string into a list kept in nondecreasing order. -/
def insertSorted (x : String) : List String → List String
  | [] => [x]
  | y :: ys => if strLeB x y then x :: y :: ys else y :: insertSorted x ys

/-- Python `sorted(...)` on a collection of strings (here: a duplicate-free
list standing for a Python set). -/
def sortStrings : List String → List String
  | [] => []
  | x :: xs => insertSorted x (sortStrings xs)

/-! ### Association lists

Python dicts keyed by strings are modelled as association lists in
insertion order; `aupdate` mirrors `d[k] = v` (replace in place, append
when fresh), which is also the overwrite behaviour of `shutil.copy2` on
the backup map. -/

/-- The keys of an association list, in order. -/
def keysOf {β : Type} (l : List (String × β)) : List String := l.map Prod.fst

/-- Lookup of the first binding of a key. -/
def alookup {β : Type} (k : String) : List (String × β) → Option β
  | [] => none
  | p :: rest => if p.1 = k then some p.2 else alookup k rest

/-- Python `d[k] = v`: replace the binding in place, or append a fresh one. -/
def aupdate {β : Type} (l : List (String × β)) (k : String) (v : β) : List (String × β) :=
  if k ∈ keysOf l then
    l.map (fun p => if p.1 = k then (k, v) else p)
  else l ++ [(k, v)]

/-! ### Data model of the repository (source lines 64-227) -/

/-- One element of `message.parts` of a session file: the `text` field may
be absent. -/
structure MsgPart where
  text : Option String
deriving DecidableEq

/-- One element of the `requests` list of a session file.  The source reads
`message.parts` only when both the `message` key and its `parts` key are
present, so that joint presence is one `Option`; `timestamp` may be
absent. -/
structure ChatRequest where
  parts : Option (List MsgPart)
  timestamp : Option Int
deriving DecidableEq

/-- The structured content of a session JSON file: the `requests` key may be
absent, as may `initialLocation`. -/
structure SessionData where
  requests : Option (List ChatRequest)
  initialLocation : Option String
deriving DecidableEq

/-- One value of the `entries` mapping of the chat session index. -/
structure IndexEntry where
  sessionId : String
  title : String
  lastMessageDate : Int
  isImported : Bool
  initialLocation : String
  isEmpty : Bool
deriving DecidableEq

/-- The value stored in the database under the index key: either a blob that
fails to parse as JSON, or a parsed document with a version and an entries
mapping (a missing `entries` key is the empty mapping). -/
inductive IndexRowVal where
  | malformed (raw : String)
  | wellFormed (version : Int) (entries : List (String × IndexEntry))
deriving DecidableEq

/-- The content of a workspace database file `state.vscdb`: the row under
key `chat.ChatSessionStore.index` (absent when the key is missing), plus the
rest of the file abstracted as an opaque component so that byte-for-byte
equality of files is equality of this structure. -/
structure DbFile where
  indexRow : Option IndexRowVal
  otherData : Nat
deriving DecidableEq

/-- A scanned workspace together with the filesystem state the repair
touches.  `sessions` maps each on-disk session ID (filename stem) to its
parsed content, `none` standing for a file whose read or JSON parse fails.
`db` is the database file (`none` when absent) and `backups` maps backup
paths to file contents. -/
structure WorkspaceFs where
  path : String
  id : String
  folder : Option String
  workspace_file : Option String
  sessions : List (String × Option SessionData)
  db : Option DbFile
  backups : List (String × DbFile)
deriving DecidableEq

/-- `WorkspaceInfo.sessions_on_disk`: IDs of the session files. -/
def sessionsOnDisk (ws : WorkspaceFs) : List String := keysOf ws.sessions

/-- Reading the index row of a database file: a missing file, a missing row
and a malformed value all yield the empty entries mapping (source lines
140-154 and 244-257). -/
def readIndexEntries : Option DbFile → List (String × IndexEntry)
  | some dbf =>
    match dbf.indexRow with
    | some (IndexRowVal.wellFormed _ es) => es
    | _ => []
  | none => []

/-- `WorkspaceInfo.sessions_in_index`: keys of the stored index. -/
def sessionsInIndex (ws : WorkspaceFs) : List String := keysOf (readIndexEntries ws.db)

/-- `WorkspaceInfo.missing_from_index`: on-disk IDs absent from the index. -/
def missing_from_index (ws : WorkspaceFs) : List String :=
  (sessionsOnDisk ws).filter (fun s => decide (s ∉ sessionsInIndex ws))

/-- `WorkspaceInfo.orphaned_in_index`: indexed IDs with no backing file. -/
def orphaned_in_index (ws : WorkspaceFs) : List String :=
  (sessionsInIndex ws).filter (fun s => decide (s ∉ sessionsOnDisk ws))

/-- Well-formedness of a scanned workspace: filename stems are distinct (a
directory cannot hold two files of one name) and the parsed index mapping,
coming from a JSON object, has distinct keys. -/
def WFWorkspace (ws : WorkspaceFs) : Prop :=
  (sessionsOnDisk ws).Nodup ∧ (sessionsInIndex ws).Nodup

/-! ### extract_project_name and folders_match (source lines 64-103) -/

/-- Split a path string at every slash. -/
def splitSlashAux (cur : List Char) : List Char → List String
  | [] => [String.mk cur.reverse]
  | c :: cs =>
    if c = '/' then String.mk cur.reverse :: splitSlashAux [] cs
    else splitSlashAux (c :: cur) cs

/-- Split a path string at every slash. -/
def splitOnSlash (s : String) : List String := splitSlashAux [] s.data

/-- `pathlib.Path(p).name` for a POSIX path: the last component after
dropping empty components and single dots. -/
def pathName (p : String) : String :=
  (((splitOnSlash p).filter (fun c => decide (c ≠ "" ∧ c ≠ "."))).getLastD "")

/-- `extract_project_name`: strip a `file://` scheme and take the final path
component; a missing or empty path gives `none`. -/
def extract_project_name (folder_path : Option String) : Option String :=
  match folder_path with
  | none => none
  | some p =>
    if p = "" then none
    else
      let q := if pyStartsWith p "file://" then pyDrop p 7 else p
      some (pathName q)

/-- `folders_match`: two folder paths refer to the same project when both
are present and their extracted project names are nonempty and equal
case-insensitively. -/
def folders_match (folder1 folder2 : Option String) : Bool :=
  if folder1.getD "" = "" ∨ folder2.getD "" = "" then false
  else
    match extract_project_name folder1, extract_project_name folder2 with
    | some name1, some name2 =>
      if name1 = "" ∨ name2 = "" then false
      else pyLower name1 == pyLower name2
    | _, _ => false

/-! ### find_orphan_in_other_workspaces (source lines 215-227) -/

/-- Scan the workspace list in order for the first workspace, other than the
current one, holding the session ID on disk; pair it with the same-project
classification of the two folders. -/
def find_orphan_in_other_workspaces (session_id : String) (current_workspace : WorkspaceFs) :
    List WorkspaceFs → Option (WorkspaceFs × Bool)
  | [] => none
  | ws :: rest =>
    if ws.id ≠ current_workspace.id ∧ session_id ∈ sessionsOnDisk ws then
      some (ws, folders_match current_workspace.folder ws.folder)
    else find_orphan_in_other_workspaces session_id current_workspace rest

/-! ### The index rebuilder (source lines 259-311)

The loop body keeps three independent accumulators: the entries mapping,
the list of restored-session summaries and the warning messages for files
that fail to read.  They are modelled as three passes over the same sorted
ID list, each mirroring the branch of the loop that touches it. -/

/-- Title derivation from `message.parts` (source lines 276-287): first
part carrying a `text` field, stripped, truncated to 97 code points plus an
ellipsis when longer than 100, with the placeholder replacing an empty
result. -/
def deriveTitle (ps : List MsgPart) : String :=
  match (ps.filterMap (fun p => p.text)).head? with
  | none => "Untitled Session"
  | some t0 =>
    let t1 := pyStrip t0
    let t2 := if pyLen t1 > 100 then pyTake t1 97 ++ "..." else t1
    if t2 = "" then "Untitled Session" else t2

/-- The index entry emitted for one parsed session file (source lines
266-300): title and last timestamp from the requests when present and
nonempty, defaults otherwise. -/
def buildSessionEntry (session_id : String) (sd : SessionData) : IndexEntry :=
  match sd.requests with
  | some (first :: rest) =>
      { sessionId := session_id
        title :=
          match first.parts with
          | some ps => deriveTitle ps
          | none => "Untitled Session"
        lastMessageDate := ((rest.getLastD first).timestamp).getD 0
        isImported := false
        initialLocation := sd.initialLocation.getD "panel"
        isEmpty := false }
  | _ =>
      { sessionId := session_id
        title := "Untitled Session"
        lastMessageDate := 0
        isImported := false
        initialLocation := sd.initialLocation.getD "panel"
        isEmpty := true }

/-- Whether the session file of an ID reads and parses successfully. -/
def parsesOK (sessions : List (String × Option SessionData)) (sid : String) : Bool :=
  match alookup sid sessions with
  | some (some _) => true
  | _ => false

/-- One iteration of the rebuild loop, restricted to the entries mapping:
a parsed file upserts its entry, a failed read leaves the mapping alone. -/
def rebuildStep (sessions : List (String × Option SessionData))
    (es : List (String × IndexEntry)) (sid : String) : List (String × IndexEntry) :=
  match alookup sid sessions with
  | some (some sd) => aupdate es sid (buildSessionEntry sid sd)
  | _ => es

/-- The rebuild loop over the sorted session IDs, restricted to the entries
mapping. -/
def rebuildEntries (sessions : List (String × Option SessionData))
    (init : List (String × IndexEntry)) (ids : List String) : List (String × IndexEntry) :=
  ids.foldl (rebuildStep sessions) init

/-- Summary of a restored session appended to the repair result. -/
structure RestoredSession where
  id : String
  title : String
  date : Int
deriving DecidableEq

/-- The rebuild loop restricted to `restored_sessions`: one summary per
parsed session whose ID is in the missing set, in iteration order. -/
def restoredList (sessions : List (String × Option SessionData))
    (missing : List String) (ids : List String) : List RestoredSession :=
  ids.filterMap (fun sid =>
    match alookup sid sessions with
    | some (some sd) =>
      if sid ∈ missing then
        some { id := sid
               title := (buildSessionEntry sid sd).title
               date := (buildSessionEntry sid sd).lastMessageDate }
      else none
    | _ => none)

/-- The rebuild loop restricted to the printed warnings: the IDs whose file
fails to read, in iteration order. -/
def failedReads (sessions : List (String × Option SessionData))
    (ids : List String) : List String :=
  ids.filter (fun sid => !(parsesOK sessions sid))

/-! ### The writer and repair_workspace (source lines 229-348) -/

/-- A wall-clock instant at second precision, as used by
`datetime.now().strftime` with a seconds format. -/
structure Timestamp where
  year : Nat
  month : Nat
  day : Nat
  hour : Nat
  minute : Nat
  second : Nat
deriving DecidableEq

/-- Zero-padding to two digits. -/
def pad2 (n : Nat) : String := if n < 10 then "0" ++ toString n else toString n

/-- Zero-padding to four digits. -/
def pad4 (n : Nat) : String :=
  if n < 10 then "000" ++ toString n
  else if n < 100 then "00" ++ toString n
  else if n < 1000 then "0" ++ toString n
  else toString n

/-- The backup suffix timestamp format of the source. -/
def strftimeCompact (t : Timestamp) : String :=
  pad4 t.year ++ pad2 t.month ++ pad2 t.day ++ "_" ++
    pad2 t.hour ++ pad2 t.minute ++ pad2 t.second

/-- Path of the workspace database file. -/
def dbPathStr (ws : WorkspaceFs) : String := ws.path ++ "/state.vscdb"

/-- Backup path: database path plus a fixed suffix pattern and the
second-precision timestamp. -/
def backupPathStr (ws : WorkspaceFs) (now : Timestamp) : String :=
  dbPathStr ws ++ ".backup." ++ strftimeCompact now

/-- The structured result dictionary returned by `repair_workspace`,
together with the warnings printed for unreadable session files. -/
structure RepairResult where
  success : Bool
  sessions_restored : Nat
  sessions_removed : Nat
  error : Option String
  restored_sessions : List RestoredSession
  warnings : List String
deriving DecidableEq

/-- `repair_workspace` (source lines 229-348).  The rebuild starts from the
stored entries unless orphan removal is requested, folds the sorted on-disk
IDs through the loop, and, outside dry-run, copies the database file to the
timestamped backup path before storing the new index under version 1.  A
missing database file makes the backup copy raise, which the enclosing
handler turns into a failed result with no state change and zero counts. -/
def repair_workspace (ws : WorkspaceFs) (dry_run : Bool) (remove_orphans : Bool)
    (now : Timestamp) : RepairResult × WorkspaceFs :=
  let entries0 := if remove_orphans then [] else readIndexEntries ws.db
  let ids := sortStrings (sessionsOnDisk ws)
  let missing := missing_from_index ws
  let entries := rebuildEntries ws.sessions entries0 ids
  let restored := restoredList ws.sessions missing ids
  let warns := failedReads ws.sessions ids
  if dry_run then
    ({ success := true
       sessions_restored := missing.length
       sessions_removed := if remove_orphans then (orphaned_in_index ws).length else 0
       error := none
       restored_sessions := restored
       warnings := warns }, ws)
  else
    match ws.db with
    | none =>
      ({ success := false
         sessions_restored := 0
         sessions_removed := 0
         error := some "No such file or directory"
         restored_sessions := restored
         warnings := warns }, ws)
    | some dbf =>
      let ws2 : WorkspaceFs :=
        { ws with
          db := some { dbf with indexRow := some (IndexRowVal.wellFormed 1 entries) }
          backups := aupdate ws.backups (backupPathStr ws now) dbf }
      ({ success := true
         sessions_restored := missing.length
         sessions_removed := if remove_orphans then (orphaned_in_index ws).length else 0
         error := none
         restored_sessions := restored
         warnings := warns }, ws2)

end FixChatHistory

namespace FixChatHistory

/-! ### Association list lemmas -/

theorem mem_keysOf {β : Type} {l : List (String × β)} {k : String} :
    k ∈ keysOf l ↔ ∃ v, (k, v) ∈ l := by
  induction l with
  | nil => simp [keysOf]
  | cons p rest ih =>
    simp only [keysOf, List.map_cons, List.mem_cons] at *
    constructor
    · rintro (h | h)
      · exact ⟨p.2, Or.inl (by cases p; simp_all)⟩
      · obtain ⟨v, hv⟩ := ih.mp h
        exact ⟨v, Or.inr hv⟩
    · rintro ⟨v, h | h⟩
      · simp [← h]
      · exact Or.inr (ih.mpr ⟨v, h⟩)

theorem alookup_isSome_of_mem_keysOf {β : Type} {l : List (String × β)} {k : String}
    (h : k ∈ keysOf l) : (alookup k l).isSome := by
  induction l with
  | nil => simp [keysOf] at h
  | cons p rest ih =>
    simp only [keysOf, List.map_cons, List.mem_cons] at h
    by_cases hp : p.1 = k
    · simp [alookup, hp]
    · rcases h with h | h
      · exact absurd h.symm hp
      · simpa [alookup, hp] using ih h

theorem mem_keysOf_of_alookup {β : Type} {l : List (String × β)} {k : String} {v : β}
    (h : alookup k l = some v) : k ∈ keysOf l := by
  induction l with
  | nil => simp [alookup] at h
  | cons p rest ih =>
    by_cases hp : p.1 = k
    · simp [keysOf, hp]
    · simp only [alookup, if_neg hp] at h
      have hm := ih h
      simp only [keysOf, List.map_cons, List.mem_cons]
      exact Or.inr hm

theorem alookup_mem {β : Type} {l : List (String × β)} {k : String} {v : β}
    (h : alookup k l = some v) : (k, v) ∈ l := by
  induction l with
  | nil => simp [alookup] at h
  | cons p rest ih =>
    by_cases hp : p.1 = k
    · simp only [alookup, if_pos hp, Option.some.injEq] at h
      have hpe : p = (k, v) := by cases p; simp_all
      rw [← hpe]
      exact List.mem_cons_self _ _
    · simp only [alookup, if_neg hp] at h
      exact List.mem_cons_of_mem _ (ih h)

theorem alookup_of_mem_nodup {β : Type} {l : List (String × β)} {k : String} {v : β}
    (hnd : (keysOf l).Nodup) (h : (k, v) ∈ l) : alookup k l = some v := by
  induction l with
  | nil => simp at h
  | cons p rest ih =>
    simp only [keysOf, List.map_cons, List.nodup_cons] at hnd
    rcases List.mem_cons.mp h with h | h
    · simp [alookup, ← h]
    · have hk : k ∈ keysOf rest := mem_keysOf.mpr ⟨v, h⟩
      have hp : p.1 ≠ k := fun he => hnd.1 (he ▸ hk)
      simpa [alookup, hp] using ih hnd.2 h

theorem alookup_map_update_self {β : Type} {l : List (String × β)} {k : String} (v : β)
    (hk : k ∈ keysOf l) :
    alookup k (l.map (fun p => if p.1 = k then (k, v) else p)) = some v := by
  induction l with
  | nil => simp [keysOf] at hk
  | cons p rest ih =>
    by_cases hp : p.1 = k
    · simp [alookup, hp]
    · have hk' : k ∈ keysOf rest := by
        simp only [keysOf, List.map_cons, List.mem_cons] at hk
        rcases hk with h | h
        · exact absurd h.symm hp
        · exact h
      simpa [alookup, hp] using ih hk'

theorem alookup_append_fresh {β : Type} {l : List (String × β)} {k : String} (v : β)
    (hk : k ∉ keysOf l) : alookup k (l ++ [(k, v)]) = some v := by
  induction l with
  | nil => simp [alookup]
  | cons p rest ih =>
    simp only [keysOf, List.map_cons, List.mem_cons, not_or] at hk
    have hp : p.1 ≠ k := fun he => hk.1 he.symm
    simpa [alookup, hp] using ih hk.2

theorem alookup_aupdate_self {β : Type} (l : List (String × β)) (k : String) (v : β) :
    alookup k (aupdate l k v) = some v := by
  unfold aupdate
  by_cases hk : k ∈ keysOf l
  · simpa [hk] using alookup_map_update_self v hk
  · simpa [hk] using alookup_append_fresh v hk

theorem alookup_map_update_ne {β : Type} {l : List (String × β)} {k k' : String} (v : β)
    (h : k' ≠ k) :
    alookup k' (l.map (fun p => if p.1 = k then (k, v) else p)) = alookup k' l := by
  induction l with
  | nil => simp
  | cons p rest ih =>
    by_cases hp : p.1 = k
    · have h1 : ¬ k = k' := fun he => h he.symm
      have h2 : ¬ p.1 = k' := by rw [hp]; exact h1
      simp [alookup, hp, h1, h2, ih]
    · by_cases hp' : p.1 = k'
      · simp [alookup, hp, hp', h]
      · simp [alookup, hp, hp', ih]

theorem alookup_append_ne {β : Type} {l : List (String × β)} {k k' : String} (v : β)
    (h : k' ≠ k) : alookup k' (l ++ [(k, v)]) = alookup k' l := by
  have h1 : ¬ k = k' := fun he => h he.symm
  induction l with
  | nil => simp [alookup, h1]
  | cons p rest ih =>
    by_cases hp' : p.1 = k'
    · simp [alookup, hp']
    · simp [alookup, hp', ih]

theorem alookup_aupdate_ne {β : Type} (l : List (String × β)) {k k' : String} (v : β)
    (h : k' ≠ k) : alookup k' (aupdate l k v) = alookup k' l := by
  unfold aupdate
  by_cases hk : k ∈ keysOf l
  · simpa [hk] using alookup_map_update_ne v h
  · simpa [hk] using alookup_append_ne v h

theorem keysOf_aupdate {β : Type} (l : List (String × β)) (k : String) (v : β) :
    keysOf (aupdate l k v) = if k ∈ keysOf l then keysOf l else keysOf l ++ [k] := by
  by_cases hk : k ∈ keysOf l
  · rw [aupdate, if_pos hk, if_pos hk]
    unfold keysOf
    rw [List.map_map]
    refine List.map_congr_left ?_
    intro p _
    by_cases hp : p.1 = k
    · simp [hp]
    · simp [hp]
  · rw [aupdate, if_neg hk, if_neg hk]
    simp [keysOf]

theorem mem_keysOf_aupdate {β : Type} {l : List (String × β)} {k x : String} {v : β} :
    x ∈ keysOf (aupdate l k v) ↔ x ∈ keysOf l ∨ x = k := by
  rw [keysOf_aupdate]
  by_cases hk : k ∈ keysOf l
  · simp only [if_pos hk]
    constructor
    · exact Or.inl
    · rintro (h | h)
      · exact h
      · exact h ▸ hk
  · simp [if_neg hk]

theorem nodup_keysOf_aupdate {β : Type} {l : List (String × β)} {k : String} {v : β}
    (h : (keysOf l).Nodup) : (keysOf (aupdate l k v)).Nodup := by
  rw [keysOf_aupdate]
  by_cases hk : k ∈ keysOf l
  · simpa [hk] using h
  · simp [hk, List.nodup_append, h]

theorem map_update_id {β : Type} {l : List (String × β)} {k : String} (v : β)
    (hk : k ∉ keysOf l) : l.map (fun p => if p.1 = k then (k, v) else p) = l := by
  induction l with
  | nil => simp
  | cons p rest ih =>
    simp only [keysOf, List.map_cons, List.mem_cons, not_or] at hk
    have hp : p.1 ≠ k := fun he => hk.1 he.symm
    simp [hp, ih hk.2]

theorem aupdate_eq_self {β : Type} {l : List (String × β)} {k : String} {v : β}
    (hnd : (keysOf l).Nodup) (h : alookup k l = some v) : aupdate l k v = l := by
  unfold aupdate
  rw [if_pos (mem_keysOf_of_alookup h)]
  induction l with
  | nil => simp [alookup] at h
  | cons p rest ih =>
    simp only [keysOf, List.map_cons, List.nodup_cons] at hnd
    by_cases hp : p.1 = k
    · simp only [alookup, if_pos hp, Option.some.injEq] at h
      have hk : k ∉ keysOf rest := hp ▸ hnd.1
      have hh : (if p.1 = k then (k, v) else p) = p := by
        cases p
        simp_all
      simp [List.map_cons, hh, map_update_id v hk]
    · simp only [alookup, if_neg hp] at h
      simp [List.map_cons, if_neg hp, ih hnd.2 h]

end FixChatHistory

namespace FixChatHistory

/-! ### Sorting lemmas -/

theorem insertSorted_perm (x : String) (l : List String) :
    (insertSorted x l).Perm (x :: l) := by
  induction l with
  | nil => simp [insertSorted]
  | cons y ys ih =>
    unfold insertSorted
    by_cases h : strLeB x y
    · simp [h]
    · simp only [if_neg h]
      exact (ih.cons y).trans (List.Perm.swap x y ys)

theorem sortStrings_perm (l : List String) : (sortStrings l).Perm l := by
  induction l with
  | nil => simp [sortStrings]
  | cons x xs ih =>
    unfold sortStrings
    exact (insertSorted_perm x (sortStrings xs)).trans (ih.cons x)

theorem mem_sortStrings {l : List String} {x : String} :
    x ∈ sortStrings l ↔ x ∈ l :=
  (sortStrings_perm l).mem_iff

theorem nodup_sortStrings {l : List String} (h : l.Nodup) : (sortStrings l).Nodup :=
  (sortStrings_perm l).nodup_iff.mpr h

/-! ### Rebuild loop lemmas -/

theorem mem_keysOf_rebuildEntries {S : List (String × Option SessionData)}
    {init : List (String × IndexEntry)} {ids : List String} {x : String} :
    x ∈ keysOf (rebuildEntries S init ids) ↔
      x ∈ keysOf init ∨ (x ∈ ids ∧ parsesOK S x = true) := by
  induction ids generalizing init with
  | nil => simp [rebuildEntries]
  | cons a rest ih =>
    show x ∈ keysOf (rebuildEntries S (rebuildStep S init a) rest) ↔ _
    rw [ih]
    unfold rebuildStep
    by_cases hxa : x = a
    · subst hxa
      cases h : alookup x S with
      | none => simp [h, parsesOK]
      | some c =>
        cases c with
        | none => simp [h, parsesOK]
        | some sd => simp [h, parsesOK, mem_keysOf_aupdate]
    · cases h : alookup a S with
      | none => simp [h, hxa]
      | some c =>
        cases c with
        | none => simp [h, hxa]
        | some sd => simp [h, hxa, mem_keysOf_aupdate]

theorem nodup_keysOf_rebuildEntries {S : List (String × Option SessionData)}
    {init : List (String × IndexEntry)} {ids : List String}
    (h : (keysOf init).Nodup) : (keysOf (rebuildEntries S init ids)).Nodup := by
  induction ids generalizing init with
  | nil => simpa [rebuildEntries] using h
  | cons a rest ih =>
    show (keysOf (rebuildEntries S (rebuildStep S init a) rest)).Nodup
    apply ih
    unfold rebuildStep
    cases ha : alookup a S with
    | none => exact h
    | some c =>
      cases c with
      | none => exact h
      | some sd => exact nodup_keysOf_aupdate h

theorem alookup_rebuildEntries_of_not_mem {S : List (String × Option SessionData)}
    {init : List (String × IndexEntry)} {ids : List String} {x : String}
    (hx : x ∉ ids) : alookup x (rebuildEntries S init ids) = alookup x init := by
  induction ids generalizing init with
  | nil => rfl
  | cons a rest ih =>
    simp only [List.mem_cons, not_or] at hx
    show alookup x (rebuildEntries S (rebuildStep S init a) rest) = _
    rw [ih hx.2]
    unfold rebuildStep
    cases ha : alookup a S with
    | none => rfl
    | some c =>
      cases c with
      | none => rfl
      | some sd => exact alookup_aupdate_ne init _ hx.1

theorem alookup_rebuildEntries_parse_fail {S : List (String × Option SessionData)}
    {init : List (String × IndexEntry)} {ids : List String} {x : String}
    (hx : parsesOK S x = false) :
    alookup x (rebuildEntries S init ids) = alookup x init := by
  induction ids generalizing init with
  | nil => rfl
  | cons a rest ih =>
    show alookup x (rebuildEntries S (rebuildStep S init a) rest) = _
    rw [ih]
    unfold rebuildStep
    by_cases hxa : x = a
    · subst hxa
      unfold parsesOK at hx
      cases ha : alookup x S with
      | none => rfl
      | some c =>
        cases c with
        | none => rfl
        | some sd => rw [ha] at hx; simp at hx
    · cases ha : alookup a S with
      | none => rfl
      | some c =>
        cases c with
        | none => rfl
        | some sd => exact alookup_aupdate_ne init _ hxa

theorem alookup_rebuildEntries_mem {S : List (String × Option SessionData)}
    {init : List (String × IndexEntry)} {ids : List String} {x : String} {sd : SessionData}
    (hnd : ids.Nodup) (hx : x ∈ ids) (hs : alookup x S = some (some sd)) :
    alookup x (rebuildEntries S init ids) = some (buildSessionEntry x sd) := by
  induction ids generalizing init with
  | nil => simp at hx
  | cons a rest ih =>
    rw [List.nodup_cons] at hnd
    show alookup x (rebuildEntries S (rebuildStep S init a) rest) = _
    rcases List.mem_cons.mp hx with hxa | hxr
    · subst hxa
      rw [alookup_rebuildEntries_of_not_mem hnd.1]
      unfold rebuildStep
      rw [hs]
      exact alookup_aupdate_self init x _
    · exact ih hnd.2 hxr

theorem rebuildEntries_fixed {S : List (String × Option SessionData)}
    {init : List (String × IndexEntry)} {ids : List String}
    (hnd : (keysOf init).Nodup)
    (h : ∀ x ∈ ids, ∀ sd, alookup x S = some (some sd) →
      alookup x init = some (buildSessionEntry x sd)) :
    rebuildEntries S init ids = init := by
  induction ids with
  | nil => rfl
  | cons a rest ih =>
    show rebuildEntries S (rebuildStep S init a) rest = init
    have hstep : rebuildStep S init a = init := by
      unfold rebuildStep
      cases ha : alookup a S with
      | none => rfl
      | some c =>
        cases c with
        | none => rfl
        | some sd =>
          exact aupdate_eq_self hnd (h a (List.mem_cons_self a rest) sd ha)
    rw [hstep]
    exact ih (fun x hx sd hs => h x (List.mem_cons_of_mem a hx) sd hs)

theorem restoredList_length (S : List (String × Option SessionData))
    (missing : List String) (ids : List String) :
    (restoredList S missing ids).length =
      ((ids.filter (fun sid => decide (sid ∈ missing))).filter
        (fun sid => parsesOK S sid)).length := by
  induction ids with
  | nil => rfl
  | cons a rest ih =>
    simp only [restoredList, List.filterMap_cons, List.filter_cons] at *
    cases ha : alookup a S with
    | none =>
      have hp : parsesOK S a = false := by simp [parsesOK, ha]
      by_cases hm : a ∈ missing <;> simp [ha, hp, hm, ih]
    | some c =>
      cases c with
      | none =>
        have hp : parsesOK S a = false := by simp [parsesOK, ha]
        by_cases hm : a ∈ missing <;> simp [ha, hp, hm, ih]
      | some sd =>
        have hp : parsesOK S a = true := by simp [parsesOK, ha]
        by_cases hm : a ∈ missing <;> simp [ha, hp, hm, ih]

end FixChatHistory

namespace FixChatHistory

/-! ### String helper lemmas -/

theorem data_append (a b : String) : (a ++ b).data = a.data ++ b.data := rfl

theorem pyLen_append (a b : String) : pyLen (a ++ b) = pyLen a + pyLen b := by
  simp [pyLen, data_append]

theorem pyLen_pyTake (s : String) (n : Nat) : pyLen (pyTake s n) = min n (pyLen s) := by
  simp [pyLen, pyTake]

theorem strAppend_left_cancel {a b c : String} (h : a ++ b = a ++ c) : b = c := by
  apply String.ext
  have hd := congrArg String.data h
  rw [data_append, data_append] at hd
  exact List.append_cancel_left hd

theorem pyLen_eq_zero_iff {s : String} : pyLen s = 0 ↔ s = "" := by
  cases s with
  | mk d =>
    constructor
    · intro h
      apply String.ext
      simpa [pyLen] using List.length_eq_zero.mp h
    · intro h
      have hd : d = "".data := congrArg String.data h
      simp [pyLen, hd]

end FixChatHistory

namespace FixChatHistory

/-! ### Characterizations of repair_workspace by mode -/

/-- Dry run: the result is computed but the state is returned untouched. -/
theorem repair_workspace_dry (ws : WorkspaceFs) (ro : Bool) (t : Timestamp) :
    repair_workspace ws true ro t =
      ({ success := true
         sessions_restored := (missing_from_index ws).length
         sessions_removed := if ro then (orphaned_in_index ws).length else 0
         error := none
         restored_sessions := restoredList ws.sessions (missing_from_index ws)
           (sortStrings (sessionsOnDisk ws))
         warnings := failedReads ws.sessions (sortStrings (sessionsOnDisk ws)) }, ws) := by
  simp [repair_workspace]

/-- Missing database file outside dry run: the backup copy raises, the
handler reports failure, and the state is returned untouched. -/
theorem repair_workspace_nodb (ws : WorkspaceFs) (ro : Bool) (t : Timestamp)
    (hdb : ws.db = none) :
    repair_workspace ws false ro t =
      ({ success := false
         sessions_restored := 0
         sessions_removed := 0
         error := some "No such file or directory"
         restored_sessions := restoredList ws.sessions (missing_from_index ws)
           (sortStrings (sessionsOnDisk ws))
         warnings := failedReads ws.sessions (sortStrings (sessionsOnDisk ws)) }, ws) := by
  simp [repair_workspace, hdb]

/-- Normal write: a backup of the pre-update database file is stored at the
timestamped path and the rebuilt entries are written under version 1. -/
theorem repair_workspace_write (ws : WorkspaceFs) (dbf : DbFile) (ro : Bool) (t : Timestamp)
    (hdb : ws.db = some dbf) :
    repair_workspace ws false ro t =
      ({ success := true
         sessions_restored := (missing_from_index ws).length
         sessions_removed := if ro then (orphaned_in_index ws).length else 0
         error := none
         restored_sessions := restoredList ws.sessions (missing_from_index ws)
           (sortStrings (sessionsOnDisk ws))
         warnings := failedReads ws.sessions (sortStrings (sessionsOnDisk ws)) },
       { ws with
         db := some { indexRow := some (IndexRowVal.wellFormed 1
                        (rebuildEntries ws.sessions
                          (if ro then [] else readIndexEntries ws.db)
                          (sortStrings (sessionsOnDisk ws))))
                      otherData := dbf.otherData }
         backups := aupdate ws.backups (backupPathStr ws t) dbf }) := by
  simp [repair_workspace, hdb]

end FixChatHistory

namespace FixChatHistory

/-- C3: for every workspace, a dry-run call of repair_workspace performs no
filesystem or database mutation: the database file content, the backup map
and the stored index of the returned state are exactly those of the input
state. -/
theorem C3_dry_run_no_mutation (ws : WorkspaceFs) (ro : Bool) (t : Timestamp) :
    (repair_workspace ws true ro t).2 = ws := by
  rw [repair_workspace_dry]

/-- C4: title derivation: a first exchange whose first text-bearing part is
the string Hello world titles the entry Hello world; a session without
exchanges gets the placeholder title, isEmpty true and timestamp 0; a
derived title of 150 characters is stored as its first 97 characters plus a
3-character ellipsis marker, 100 characters in all; an empty or
whitespace-only derived title falls back to the placeholder. -/
theorem C4_title_derivation :
    (∀ (sid : String) (ps : List MsgPart) (rest : List ChatRequest)
        (ts : Option Int) (loc : Option String),
      (ps.filterMap (fun p => p.text)).head? = some "Hello world" →
      (buildSessionEntry sid
        { requests := some ({ parts := some ps, timestamp := ts } :: rest)
          initialLocation := loc }).title = "Hello world") ∧
    (∀ (sid : String) (loc : Option String) (req : Option (List ChatRequest)),
      (req = none ∨ req = some []) →
      (buildSessionEntry sid { requests := req, initialLocation := loc }).title
          = "Untitled Session" ∧
      (buildSessionEntry sid { requests := req, initialLocation := loc }).isEmpty = true ∧
      (buildSessionEntry sid { requests := req, initialLocation := loc }).lastMessageDate
          = 0) ∧
    (∀ (sid : String) (ps : List MsgPart) (rest : List ChatRequest)
        (ts : Option Int) (loc : Option String) (t0 : String),
      (ps.filterMap (fun p => p.text)).head? = some t0 →
      pyLen (pyStrip t0) = 150 →
      (buildSessionEntry sid
        { requests := some ({ parts := some ps, timestamp := ts } :: rest)
          initialLocation := loc }).title = pyTake (pyStrip t0) 97 ++ "..." ∧
      pyLen ((buildSessionEntry sid
        { requests := some ({ parts := some ps, timestamp := ts } :: rest)
          initialLocation := loc }).title) = 100) ∧
    (∀ (sid : String) (ps : List MsgPart) (rest : List ChatRequest)
        (ts : Option Int) (loc : Option String) (t0 : String),
      (ps.filterMap (fun p => p.text)).head? = some t0 →
      pyStrip t0 = "" →
      (buildSessionEntry sid
        { requests := some ({ parts := some ps, timestamp := ts } :: rest)
          initialLocation := loc }).title = "Untitled Session") := by
  refine ⟨?_, ?_, ?_, ?_⟩
  · intro sid ps rest ts loc h
    simp only [buildSessionEntry, deriveTitle, h]
    decide
  · intro sid loc req hreq
    rcases hreq with h | h <;> subst h <;> exact ⟨rfl, rfl, rfl⟩
  · intro sid ps rest ts loc t0 h hlen
    have hgt : pyLen (pyStrip t0) > 100 := by rw [hlen]; decide
    have hlen2 : pyLen (pyTake (pyStrip t0) 97 ++ "...") = 100 := by
      rw [pyLen_append, pyLen_pyTake, hlen]
      decide
    have hne : ¬ (pyTake (pyStrip t0) 97 ++ "..." = "") := by
      intro he
      rw [he] at hlen2
      simp [pyLen] at hlen2
    constructor
    · simp only [buildSessionEntry, deriveTitle, h]
      simp [hgt, hne]
    · simp only [buildSessionEntry, deriveTitle, h]
      simp only [if_pos hgt, if_neg hne]
      exact hlen2
  · intro sid ps rest ts loc t0 h hstrip
    simp only [buildSessionEntry, deriveTitle, h]
    rw [hstrip]
    decide

/-- A 150-character string used to witness the truncation branch. -/
def longTitle150 : String := String.mk (List.replicate 150 'x')

set_option maxRecDepth 8192 in
/-- Witness for C4: each branch of the title derivation evaluated at a
concrete session. -/
theorem C4_title_derivation_witness :
    (buildSessionEntry "s"
      { requests := some [{ parts := some [{ text := some "Hello world" }]
                            timestamp := some 5 }]
        initialLocation := none }).title = "Hello world" ∧
    ((buildSessionEntry "s" { requests := none, initialLocation := none }).title
        = "Untitled Session" ∧
      (buildSessionEntry "s" { requests := none, initialLocation := none }).isEmpty = true ∧
      (buildSessionEntry "s" { requests := none, initialLocation := none }).lastMessageDate
        = 0) ∧
    ((buildSessionEntry "s"
      { requests := some [{ parts := some [{ text := some longTitle150 }]
                            timestamp := some 5 }]
        initialLocation := none }).title = pyTake (pyStrip longTitle150) 97 ++ "..." ∧
      pyLen ((buildSessionEntry "s"
        { requests := some [{ parts := some [{ text := some longTitle150 }]
                              timestamp := some 5 }]
          initialLocation := none }).title) = 100) ∧
    (buildSessionEntry "s"
      { requests := some [{ parts := some [{ text := some "   " }]
                            timestamp := some 5 }]
        initialLocation := none }).title = "Untitled Session" :=
  ⟨C4_title_derivation.1 "s" _ [] (some 5) none (by decide),
   C4_title_derivation.2.1 "s" none none (Or.inl rfl),
   C4_title_derivation.2.2.1 "s" _ [] (some 5) none longTitle150 (by decide) (by decide),
   C4_title_derivation.2.2.2 "s" _ [] (some 5) none "   " (by decide) (by decide)⟩

end FixChatHistory

namespace FixChatHistory

/-- A parse-failing workspace used to refute C1 as stated: its only on-disk
session file fails to parse. -/
def wsC1x : WorkspaceFs :=
  { path := "/s/w1", id := "w1", folder := none, workspace_file := none
    sessions := [("b", none)]
    db := some { indexRow := some (IndexRowVal.wellFormed 1 []), otherData := 0 }
    backups := [] }

/-- Run instant for the C1 counterexample. -/
def tC1x : Timestamp := ⟨2026, 1, 2, 3, 4, 5⟩

/-- Counterexample to C1 as stated: a successful non-dry repair with orphan
removal on a workspace whose single on-disk session file fails to parse
writes an index with no keys, so the written key set differs from the
on-disk ID set. -/
theorem C1_counterexample :
    (repair_workspace wsC1x false true tC1x).1.success = true ∧
    sessionsOnDisk wsC1x = ["b"] ∧
    keysOf (readIndexEntries (repair_workspace wsC1x false true tC1x).2.db) = [] := by
  decide

/-- C1 (amended): after repair_workspace completes with success, dry_run
false and remove_orphans true, the key set of the index written to the
database equals the set of on-disk session IDs whose files parse
successfully. -/
theorem C1_indexed_equals_parseable_ondisk (ws : WorkspaceFs) (dbf : DbFile)
    (t : Timestamp) (hdb : ws.db = some dbf) :
    (repair_workspace ws false true t).1.success = true ∧
    ∀ x, x ∈ keysOf (readIndexEntries (repair_workspace ws false true t).2.db) ↔
      (x ∈ sessionsOnDisk ws ∧ parsesOK ws.sessions x = true) := by
  rw [repair_workspace_write ws dbf true t hdb]
  refine ⟨rfl, ?_⟩
  intro x
  show x ∈ keysOf (rebuildEntries ws.sessions _ (sortStrings (sessionsOnDisk ws))) ↔ _
  rw [mem_keysOf_rebuildEntries]
  simp [keysOf, mem_sortStrings]

/-- Concrete workspace for the C1 witness: one parseable session. -/
def wsC1w : WorkspaceFs :=
  { path := "/s/w1w", id := "w1w", folder := none, workspace_file := none
    sessions := [("a", some { requests := none, initialLocation := none })]
    db := some { indexRow := none, otherData := 3 }
    backups := [] }

/-- Witness for C1 (amended) at a concrete workspace and ID. -/
theorem C1_indexed_equals_parseable_ondisk_witness :
    (repair_workspace wsC1w false true tC1x).1.success = true ∧
    ("a" ∈ keysOf (readIndexEntries (repair_workspace wsC1w false true tC1x).2.db) ↔
      ("a" ∈ sessionsOnDisk wsC1w ∧ parsesOK wsC1w.sessions "a" = true)) :=
  ⟨(C1_indexed_equals_parseable_ondisk wsC1w { indexRow := none, otherData := 3 } tC1x rfl).1,
   (C1_indexed_equals_parseable_ondisk wsC1w { indexRow := none, otherData := 3 } tC1x rfl).2 "a"⟩

/-- A parse-failing workspace used to refute C2 as stated. -/
def wsC2x : WorkspaceFs :=
  { path := "/s/w2", id := "w2", folder := none, workspace_file := none
    sessions := [("b", none)]
    db := some { indexRow := some (IndexRowVal.wellFormed 1 []), otherData := 0 }
    backups := [] }

/-- Run instant for the C2 counterexample. -/
def tC2x : Timestamp := ⟨2026, 1, 2, 3, 4, 6⟩

/-- Counterexample to C2 as stated: a successful non-dry repair with orphan
removal disabled, on a workspace whose single on-disk session file fails to
parse and whose stored index lacks that ID, writes an index that does not
contain the on-disk ID. -/
theorem C2_counterexample :
    (repair_workspace wsC2x false false tC2x).1.success = true ∧
    "b" ∈ sessionsOnDisk wsC2x ∧
    "b" ∉ keysOf (readIndexEntries (repair_workspace wsC2x false false tC2x).2.db) := by
  decide

/-- C2 (amended): after repair_workspace completes with success, dry_run
false and remove_orphans false, every on-disk session ID whose file parses
successfully is a key of the written index. -/
theorem C2_ondisk_parseable_subset_indexed (ws : WorkspaceFs) (dbf : DbFile)
    (t : Timestamp) (hdb : ws.db = some dbf) :
    (repair_workspace ws false false t).1.success = true ∧
    ∀ x, x ∈ sessionsOnDisk ws → parsesOK ws.sessions x = true →
      x ∈ keysOf (readIndexEntries (repair_workspace ws false false t).2.db) := by
  rw [repair_workspace_write ws dbf false t hdb]
  refine ⟨rfl, ?_⟩
  intro x hx hp
  show x ∈ keysOf (rebuildEntries ws.sessions _ (sortStrings (sessionsOnDisk ws)))
  rw [mem_keysOf_rebuildEntries]
  exact Or.inr ⟨mem_sortStrings.mpr hx, hp⟩

/-- Concrete workspace for the C2 witness. -/
def wsC2w : WorkspaceFs :=
  { path := "/s/w2w", id := "w2w", folder := none, workspace_file := none
    sessions := [("a", some { requests := none, initialLocation := none })]
    db := some { indexRow := some (IndexRowVal.wellFormed 1 []), otherData := 7 }
    backups := [] }

/-- Witness for C2 (amended) at a concrete workspace and ID. -/
theorem C2_ondisk_parseable_subset_indexed_witness :
    "a" ∈ keysOf (readIndexEntries (repair_workspace wsC2w false false tC2x).2.db) :=
  (C2_ondisk_parseable_subset_indexed wsC2w
      { indexRow := some (IndexRowVal.wellFormed 1 []), otherData := 7 } tC2x rfl).2
    "a" (by decide) (by decide)

end FixChatHistory

namespace FixChatHistory

/-- C10: when the existing index record is unreadable (database file
absent, index key absent, or value unparseable), repair with orphan removal
disabled still starts the rebuild from an empty entry mapping: the whole
call behaves exactly as if orphan removal had been requested, and every key
of the index it writes is an on-disk session ID, so stale entries are
dropped although removal was not requested. -/
theorem C10_unreadable_index_rebuilds_from_empty (ws : WorkspaceFs) (dr : Bool) (t : Timestamp)
    (hrow : ws.db = none ∨ ∃ dbf, ws.db = some dbf ∧
      (dbf.indexRow = none ∨ ∃ raw, dbf.indexRow = some (IndexRowVal.malformed raw))) :
    repair_workspace ws dr false t = repair_workspace ws dr true t ∧
    ∀ x ∈ keysOf (readIndexEntries (repair_workspace ws dr false t).2.db),
      x ∈ sessionsOnDisk ws := by
  have hread : readIndexEntries ws.db = [] := by
    rcases hrow with h | ⟨dbf, hdb, h2⟩
    · rw [h]
      rfl
    · rcases h2 with h2 | ⟨raw, h2⟩ <;> rw [hdb] <;> simp [readIndexEntries, h2]
  have horph : orphaned_in_index ws = [] := by
    simp [orphaned_in_index, sessionsInIndex, hread, keysOf]
  constructor
  · cases dr with
    | true =>
      rw [repair_workspace_dry, repair_workspace_dry]
      simp [horph]
    | false =>
      cases hdb : ws.db with
      | none =>
        rw [repair_workspace_nodb ws false t hdb, repair_workspace_nodb ws true t hdb]
      | some dbf =>
        rw [repair_workspace_write ws dbf false t hdb,
          repair_workspace_write ws dbf true t hdb]
        simp [hread, horph]
  · intro x hx
    cases dr with
    | true =>
      rw [repair_workspace_dry] at hx
      simp only [hread, keysOf, List.map_nil] at hx
      exact absurd hx (List.not_mem_nil x)
    | false =>
      cases hdb : ws.db with
      | none =>
        rw [repair_workspace_nodb ws false t hdb] at hx
        simp only [hdb] at hx
        simp [readIndexEntries, keysOf] at hx
      | some dbf =>
        rw [repair_workspace_write ws dbf false t hdb] at hx
        have hx2 : x ∈ keysOf (rebuildEntries ws.sessions (readIndexEntries ws.db)
            (sortStrings (sessionsOnDisk ws))) := hx
        rw [hread, mem_keysOf_rebuildEntries] at hx2
        rcases hx2 with hx2 | hx2
        · simp [keysOf] at hx2
        · exact mem_sortStrings.mp hx2.1

/-- Concrete workspace for the C10 witness: a malformed stored index value
and one parseable session. -/
def wsC10w : WorkspaceFs :=
  { path := "/s/w10", id := "w10", folder := none, workspace_file := none
    sessions := [("a", some { requests := none, initialLocation := none })]
    db := some { indexRow := some (IndexRowVal.malformed "not json"), otherData := 2 }
    backups := [] }

/-- Run instant for the C10 witness. -/
def tC10w : Timestamp := ⟨2026, 2, 3, 4, 5, 6⟩

/-- Witness for C10 at a concrete workspace with a malformed index value. -/
theorem C10_unreadable_index_rebuilds_from_empty_witness :
    repair_workspace wsC10w false false tC10w = repair_workspace wsC10w false true tC10w ∧
    ∀ x ∈ keysOf (readIndexEntries (repair_workspace wsC10w false false tC10w).2.db),
      x ∈ sessionsOnDisk wsC10w :=
  C10_unreadable_index_rebuilds_from_empty wsC10w false tC10w
    (Or.inr ⟨{ indexRow := some (IndexRowVal.malformed "not json"), otherData := 2 },
      rfl, Or.inr ⟨"not json", rfl⟩⟩)

end FixChatHistory

namespace FixChatHistory

/-- Characterization of `folders_match`: the flag is true exactly when both
folders extract to a nonempty project name and the names agree
case-insensitively. -/
theorem folders_match_iff (f1 f2 : Option String) :
    folders_match f1 f2 = true ↔
      ∃ n1 n2, extract_project_name f1 = some n1 ∧ extract_project_name f2 = some n2 ∧
        n1 ≠ "" ∧ n2 ≠ "" ∧ pyLower n1 = pyLower n2 := by
  cases f1 with
  | none => simp [folders_match, extract_project_name]
  | some p1 =>
    cases f2 with
    | none => simp [folders_match, extract_project_name]
    | some p2 =>
      by_cases h1 : p1 = ""
      · subst h1
        simp [folders_match, extract_project_name]
      · by_cases h2 : p2 = ""
        · subst h2
          simp [folders_match, extract_project_name, h1]
        · have hne : ¬ ((some p1).getD "" = "" ∨ (some p2).getD "" = "") := by
            simp [h1, h2]
          rw [folders_match, if_neg hne]
          rw [extract_project_name, extract_project_name, if_neg h1, if_neg h2]
          simp only [Option.some.injEq]
          constructor
          · intro h
            by_cases hn : pathName (if pyStartsWith p1 "file://" then pyDrop p1 7 else p1) = "" ∨
                pathName (if pyStartsWith p2 "file://" then pyDrop p2 7 else p2) = ""
            · rw [if_pos hn] at h
              exact absurd h (by simp)
            · rw [if_neg hn] at h
              push_neg at hn
              exact ⟨_, _, rfl, rfl, hn.1, hn.2, by simpa using h⟩
          · rintro ⟨n1, n2, rfl, rfl, hn1, hn2, hlow⟩
            rw [if_neg (by simp [hn1, hn2])]
            simpa using hlow

/-- C6 (amended): the orphan resolver returns the first workspace in
enumeration order, other than the current one, whose on-disk sessions
contain the ID (none when there is no such workspace), paired with a
same-project flag; the flag is true exactly when both workspaces have a
known folder whose extracted final path component is nonempty and the two
components agree case-insensitively, and in particular it is false when
either folder is unknown. -/
theorem C6_find_orphan_first_match (session_id : String) (cur : WorkspaceFs)
    (all : List WorkspaceFs) :
    find_orphan_in_other_workspaces session_id cur all =
      (all.find? (fun ws => decide (ws.id ≠ cur.id ∧ session_id ∈ sessionsOnDisk ws))).map
        (fun ws => (ws, folders_match cur.folder ws.folder)) ∧
    (∀ ws : WorkspaceFs, folders_match cur.folder ws.folder = true ↔
      ∃ n1 n2, extract_project_name cur.folder = some n1 ∧
        extract_project_name ws.folder = some n2 ∧
        n1 ≠ "" ∧ n2 ≠ "" ∧ pyLower n1 = pyLower n2) ∧
    (∀ ws : WorkspaceFs, cur.folder = none ∨ ws.folder = none →
      folders_match cur.folder ws.folder = false) := by
  refine ⟨?_, ?_, ?_⟩
  · induction all with
    | nil => rfl
    | cons ws rest ih =>
      unfold find_orphan_in_other_workspaces
      by_cases h : ws.id ≠ cur.id ∧ session_id ∈ sessionsOnDisk ws
      · have hp : (fun w : WorkspaceFs =>
            decide (w.id ≠ cur.id ∧ session_id ∈ sessionsOnDisk w)) ws = true :=
          decide_eq_true h
        rw [if_pos h, List.find?_cons_of_pos rest hp]
        rfl
      · have hp : ¬ (fun w : WorkspaceFs =>
            decide (w.id ≠ cur.id ∧ session_id ∈ sessionsOnDisk w)) ws = true :=
          fun hc => h (of_decide_eq_true hc)
        rw [if_neg h, List.find?_cons_of_neg rest hp]
        exact ih
  · intro ws
    exact folders_match_iff cur.folder ws.folder
  · intro ws h
    rcases h with h | h <;> rw [h] <;> simp [folders_match, extract_project_name]

/-- Current workspace of the C6 counterexample: its folder is the
filesystem root. -/
def curC6x : WorkspaceFs :=
  { path := "/s/c6a", id := "c6a", folder := some "/", workspace_file := none
    sessions := [], db := none, backups := [] }

/-- Other workspace of the C6 counterexample: same root folder and the
orphaned session on disk. -/
def wsC6x : WorkspaceFs :=
  { path := "/s/c6b", id := "c6b", folder := some "/", workspace_file := none
    sessions := [("x", none)], db := none, backups := [] }

/-- Counterexample to C6 as stated: both workspaces have a known folder
(the filesystem root) and the final path components of the two folders are
equal, both being empty, yet the resolver reports same_project = false. -/
theorem C6_counterexample :
    find_orphan_in_other_workspaces "x" curC6x [wsC6x] = some (wsC6x, false) ∧
    curC6x.folder = some "/" ∧ wsC6x.folder = some "/" ∧
    pathName "/" = "" := by
  decide

/-- Current workspace of the C6 witness. -/
def curC6w : WorkspaceFs :=
  { path := "/s/c6c", id := "c6c", folder := some "/home/u/Proj", workspace_file := none
    sessions := [], db := none, backups := [] }

/-- Other workspace of the C6 witness, holding the session and a folder of
the same name up to case, behind a file scheme. -/
def wsC6w : WorkspaceFs :=
  { path := "/s/c6d", id := "c6d", folder := some "file:///data/proj", workspace_file := none
    sessions := [("x", some { requests := none, initialLocation := none })]
    db := none, backups := [] }

/-- Witness for C6 at a concrete scan list. -/
theorem C6_find_orphan_first_match_witness :
    find_orphan_in_other_workspaces "x" curC6w [wsC6w] =
      (([wsC6w].find? (fun ws => decide (ws.id ≠ curC6w.id ∧ "x" ∈ sessionsOnDisk ws))).map
        (fun ws => (ws, folders_match curC6w.folder ws.folder))) :=
  (C6_find_orphan_first_match "x" curC6w [wsC6w]).1

end FixChatHistory

namespace FixChatHistory

/-- Backup paths of one workspace at two instants agree only when the
formatted timestamps agree. -/
theorem backupPathStr_inj_time {ws : WorkspaceFs} {t1 t2 : Timestamp}
    (h : backupPathStr ws t1 = backupPathStr ws t2) :
    strftimeCompact t1 = strftimeCompact t2 := by
  unfold backupPathStr at h
  exact strAppend_left_cancel h

/-- C5 (amended): outside dry-run, a successful repair stores a copy of the
pre-update database file under the database path extended by the backup
suffix and the second-precision timestamp; when a second repair runs at an
instant whose second-precision rendering differs, its backup path is
distinct, the new backup holds the database content left by the first run,
and the first backup is left intact.  Two runs within the same rendered
second share one path and the later copy replaces the earlier one. -/
theorem C5_backup_before_write (ws : WorkspaceFs) (dbf : DbFile) (ro1 ro2 : Bool)
    (t1 t2 : Timestamp) (hdb : ws.db = some dbf)
    (hts : strftimeCompact t1 ≠ strftimeCompact t2) :
    backupPathStr ws t1 = dbPathStr ws ++ ".backup." ++ strftimeCompact t1 ∧
    alookup (backupPathStr ws t1) ((repair_workspace ws false ro1 t1).2).backups
      = some dbf ∧
    backupPathStr ((repair_workspace ws false ro1 t1).2) t2 ≠ backupPathStr ws t1 ∧
    (∀ d, ((repair_workspace ws false ro1 t1).2).db = some d →
      alookup (backupPathStr ((repair_workspace ws false ro1 t1).2) t2)
        ((repair_workspace ((repair_workspace ws false ro1 t1).2) false ro2 t2).2).backups
        = some d) ∧
    alookup (backupPathStr ws t1)
      ((repair_workspace ((repair_workspace ws false ro1 t1).2) false ro2 t2).2).backups
      = some dbf := by
  rw [repair_workspace_write ws dbf ro1 t1 hdb]
  have hpath2 : backupPathStr
      ({ ws with
         db := some { indexRow := some (IndexRowVal.wellFormed 1
                        (rebuildEntries ws.sessions
                          (if ro1 then [] else readIndexEntries ws.db)
                          (sortStrings (sessionsOnDisk ws))))
                      otherData := dbf.otherData }
         backups := aupdate ws.backups (backupPathStr ws t1) dbf } : WorkspaceFs) t2
      = backupPathStr ws t2 := rfl
  have hne : backupPathStr ws t2 ≠ backupPathStr ws t1 :=
    fun he => hts (backupPathStr_inj_time he).symm
  refine ⟨rfl, alookup_aupdate_self ws.backups _ dbf, ?_, ?_, ?_⟩
  · rw [hpath2]
    exact hne
  · intro d hd
    rw [repair_workspace_write _ d ro2 t2 hd]
    exact alookup_aupdate_self _ _ d
  · rw [repair_workspace_write _ _ ro2 t2 rfl]
    show alookup (backupPathStr ws t1)
      (aupdate (aupdate ws.backups (backupPathStr ws t1) dbf) (backupPathStr ws t2) _)
      = some dbf
    rw [alookup_aupdate_ne _ _ hne.symm]
    exact alookup_aupdate_self ws.backups _ dbf

/-- Workspace of the C5 counterexample: a stored index entry that the
repair rewrites, so the database content changes. -/
def wsC5x : WorkspaceFs :=
  { path := "/s/w5", id := "w5", folder := none, workspace_file := none
    sessions := [("a", some { requests := none, initialLocation := none })]
    db := some { indexRow := some (IndexRowVal.wellFormed 1
                   [("z", { sessionId := "z", title := "t", lastMessageDate := 0,
                            isImported := false, initialLocation := "panel",
                            isEmpty := true })])
                 otherData := 0 }
    backups := [] }

/-- Run instant shared by both C5 counterexample runs: the second run falls
in the same second. -/
def tC5x : Timestamp := ⟨2026, 3, 4, 5, 6, 7⟩

/-- Counterexample to C5 as stated: two repair runs within the same second
use the same backup path, so the second run leaves a single backup and it
is no longer the pre-update content of the first run, that is, the prior
backup has been overwritten. -/
theorem C5_counterexample :
    ((repair_workspace wsC5x false true tC5x).2).backups.length = 1 ∧
    ((repair_workspace ((repair_workspace wsC5x false true tC5x).2)
        false true tC5x).2).backups.length = 1 ∧
    alookup (backupPathStr wsC5x tC5x)
        ((repair_workspace wsC5x false true tC5x).2).backups = wsC5x.db ∧
    alookup (backupPathStr wsC5x tC5x)
        ((repair_workspace ((repair_workspace wsC5x false true tC5x).2)
          false true tC5x).2).backups ≠ wsC5x.db := by
  decide

/-- Workspace of the C5 witness. -/
def wsC5w : WorkspaceFs :=
  { path := "/s/w5w", id := "w5w", folder := none, workspace_file := none
    sessions := [("a", some { requests := none, initialLocation := none })]
    db := some { indexRow := none, otherData := 9 }
    backups := [] }

/-- Second run instant of the C5 witness, one second later. -/
def tC5w2 : Timestamp := ⟨2026, 3, 4, 5, 6, 8⟩

/-- Witness for C5 (amended) at a concrete workspace and two distinct
second-precision instants. -/
theorem C5_backup_before_write_witness :
    backupPathStr wsC5w tC5x = dbPathStr wsC5w ++ ".backup." ++ strftimeCompact tC5x ∧
    alookup (backupPathStr wsC5w tC5x) ((repair_workspace wsC5w false true tC5x).2).backups
      = some { indexRow := none, otherData := 9 } ∧
    backupPathStr ((repair_workspace wsC5w false true tC5x).2) tC5w2
      ≠ backupPathStr wsC5w tC5x ∧
    (∀ d, ((repair_workspace wsC5w false true tC5x).2).db = some d →
      alookup (backupPathStr ((repair_workspace wsC5w false true tC5x).2) tC5w2)
        ((repair_workspace ((repair_workspace wsC5w false true tC5x).2)
          false false tC5w2).2).backups = some d) ∧
    alookup (backupPathStr wsC5w tC5x)
      ((repair_workspace ((repair_workspace wsC5w false true tC5x).2)
        false false tC5w2).2).backups = some { indexRow := none, otherData := 9 } :=
  C5_backup_before_write wsC5w { indexRow := none, otherData := 9 } true false
    tC5x tC5w2 rfl (by decide)

end FixChatHistory

namespace FixChatHistory

/-- C7: a session file that fails to parse is excluded from the rebuilt
index: the repair still succeeds, the failure is reported as a warning, the
written index binds that ID exactly as the initial mapping did (no entry is
inserted for it), and every other session whose file parses is still
processed into the written index. -/
theorem C7_unparseable_session_skipped (ws : WorkspaceFs) (sid : String) (ro : Bool)
    (t : Timestamp) (dbf : DbFile) (hwf : WFWorkspace ws)
    (hmem : (sid, (none : Option SessionData)) ∈ ws.sessions)
    (hdb : ws.db = some dbf) :
    (repair_workspace ws false ro t).1.success = true ∧
    sid ∈ (repair_workspace ws false ro t).1.warnings ∧
    alookup sid (readIndexEntries ((repair_workspace ws false ro t).2).db) =
      alookup sid (if ro then [] else readIndexEntries ws.db) ∧
    (∀ sid2 sd2, (sid2, some sd2) ∈ ws.sessions →
      sid2 ∈ keysOf (readIndexEntries ((repair_workspace ws false ro t).2).db)) := by
  have hlook : alookup sid ws.sessions = some none := alookup_of_mem_nodup hwf.1 hmem
  have hp : parsesOK ws.sessions sid = false := by simp [parsesOK, hlook]
  have hid : sid ∈ sortStrings (sessionsOnDisk ws) :=
    mem_sortStrings.mpr (mem_keysOf.mpr ⟨none, hmem⟩)
  rw [repair_workspace_write ws dbf ro t hdb]
  refine ⟨rfl, ?_, ?_, ?_⟩
  · show sid ∈ failedReads ws.sessions (sortStrings (sessionsOnDisk ws))
    unfold failedReads
    rw [List.mem_filter]
    exact ⟨hid, by rw [hp]; rfl⟩
  · show alookup sid (rebuildEntries ws.sessions _ _) = _
    exact alookup_rebuildEntries_parse_fail hp
  · intro sid2 sd2 hmem2
    show sid2 ∈ keysOf (rebuildEntries ws.sessions _ _)
    rw [mem_keysOf_rebuildEntries]
    right
    refine ⟨mem_sortStrings.mpr (mem_keysOf.mpr ⟨some sd2, hmem2⟩), ?_⟩
    have hlk2 : alookup sid2 ws.sessions = some (some sd2) :=
      alookup_of_mem_nodup hwf.1 hmem2
    simp [parsesOK, hlk2]

/-- Workspace of the C7 witness: one parseable and one unparseable session
file. -/
def wsC7w : WorkspaceFs :=
  { path := "/s/w7", id := "w7", folder := none, workspace_file := none
    sessions := [("a", some { requests := none, initialLocation := none }), ("b", none)]
    db := some { indexRow := some (IndexRowVal.wellFormed 1 []), otherData := 4 }
    backups := [] }

/-- Run instant for the C7 witness. -/
def tC7w : Timestamp := ⟨2026, 5, 6, 7, 8, 9⟩

/-- Witness for C7 at a concrete workspace. -/
theorem C7_unparseable_session_skipped_witness :
    (repair_workspace wsC7w false false tC7w).1.success = true ∧
    "b" ∈ (repair_workspace wsC7w false false tC7w).1.warnings ∧
    alookup "b" (readIndexEntries ((repair_workspace wsC7w false false tC7w).2).db) =
      alookup "b" (if false then [] else readIndexEntries wsC7w.db) ∧
    (∀ sid2 sd2, (sid2, some sd2) ∈ wsC7w.sessions →
      sid2 ∈ keysOf (readIndexEntries ((repair_workspace wsC7w false false tC7w).2).db)) :=
  C7_unparseable_session_skipped wsC7w "b" false tC7w
    { indexRow := some (IndexRowVal.wellFormed 1 []), otherData := 4 }
    ⟨by decide, by decide⟩ (by decide) rfl

end FixChatHistory

namespace FixChatHistory

/-- C9: a successful repair reports sessions_restored equal to the size of
the scan-time missing set, and when some missing session file fails to
parse, the restored_sessions list is strictly shorter than that count. -/
theorem C9_restored_count_vs_list (ws : WorkspaceFs) (dr ro : Bool) (t : Timestamp)
    (hwf : WFWorkspace ws)
    (hsucc : (repair_workspace ws dr ro t).1.success = true) :
    (repair_workspace ws dr ro t).1.sessions_restored = (missing_from_index ws).length ∧
    ((∃ sid, (sid, (none : Option SessionData)) ∈ ws.sessions ∧
        sid ∈ missing_from_index ws) →
      (repair_workspace ws dr ro t).1.restored_sessions.length <
        (repair_workspace ws dr ro t).1.sessions_restored) := by
  have hres : (repair_workspace ws dr ro t).1.sessions_restored
        = (missing_from_index ws).length ∧
      (repair_workspace ws dr ro t).1.restored_sessions =
        restoredList ws.sessions (missing_from_index ws)
          (sortStrings (sessionsOnDisk ws)) := by
    cases dr with
    | true =>
      rw [repair_workspace_dry]
      exact ⟨rfl, rfl⟩
    | false =>
      cases hdb : ws.db with
      | none =>
        rw [repair_workspace_nodb ws ro t hdb] at hsucc
        simp at hsucc
      | some dbf =>
        rw [repair_workspace_write ws dbf ro t hdb]
        exact ⟨rfl, rfl⟩
  have hfeq : ((sortStrings (sessionsOnDisk ws)).filter
      (fun s => decide (s ∈ missing_from_index ws))).length
        = (missing_from_index ws).length := by
    rw [((sortStrings_perm (sessionsOnDisk ws)).filter _).length_eq]
    have hfc : (sessionsOnDisk ws).filter (fun s => decide (s ∈ missing_from_index ws)) =
        missing_from_index ws := by
      conv_rhs => rw [missing_from_index]
      apply List.filter_congr
      intro x hx
      rw [decide_eq_decide]
      simp [missing_from_index, List.mem_filter, hx]
    rw [hfc]
  refine ⟨hres.1, ?_⟩
  rintro ⟨sid, hmem, hmiss⟩
  rw [hres.1, hres.2, restoredList_length, ← hfeq]
  apply List.length_filter_lt_length_iff_exists.mpr
  refine ⟨sid, List.mem_filter.mpr ⟨mem_sortStrings.mpr (mem_keysOf.mpr ⟨none, hmem⟩),
    decide_eq_true hmiss⟩, ?_⟩
  have hlook : alookup sid ws.sessions = some none := alookup_of_mem_nodup hwf.1 hmem
  simp [parsesOK, hlook]

/-- Workspace of the C9 witness: two missing sessions, one of which fails
to parse. -/
def wsC9w : WorkspaceFs :=
  { path := "/s/w9", id := "w9", folder := none, workspace_file := none
    sessions := [("a", some { requests := none, initialLocation := none }), ("b", none)]
    db := some { indexRow := some (IndexRowVal.wellFormed 1 []), otherData := 5 }
    backups := [] }

/-- Run instant for the C9 witness. -/
def tC9w : Timestamp := ⟨2026, 6, 7, 8, 9, 10⟩

/-- Witness for C9 at a concrete workspace with an unparseable missing
session. -/
theorem C9_restored_count_vs_list_witness :
    (repair_workspace wsC9w false false tC9w).1.sessions_restored
        = (missing_from_index wsC9w).length ∧
    (repair_workspace wsC9w false false tC9w).1.restored_sessions.length <
      (repair_workspace wsC9w false false tC9w).1.sessions_restored :=
  ⟨(C9_restored_count_vs_list wsC9w false false tC9w ⟨by decide, by decide⟩ (by decide)).1,
   (C9_restored_count_vs_list wsC9w false false tC9w ⟨by decide, by decide⟩ (by decide)).2
     ⟨"b", by decide, by decide⟩⟩

end FixChatHistory

namespace FixChatHistory

/-- C8: with unchanged session files, a second repair run over the state
left by a first run succeeds and writes an index identical to the one the
first run wrote, for either orphan-removal mode. -/
theorem C8_repair_idempotent (ws : WorkspaceFs) (dbf : DbFile) (ro : Bool)
    (t1 t2 : Timestamp) (hwf : WFWorkspace ws) (hdb : ws.db = some dbf) :
    (repair_workspace ((repair_workspace ws false ro t1).2) false ro t2).1.success = true ∧
    readIndexEntries
        ((repair_workspace ((repair_workspace ws false ro t1).2) false ro t2).2).db =
      readIndexEntries ((repair_workspace ws false ro t1).2).db := by
  have hids : (sortStrings (sessionsOnDisk ws)).Nodup := nodup_sortStrings hwf.1
  rw [repair_workspace_write ws dbf ro t1 hdb]
  rw [repair_workspace_write _ _ ro t2 rfl]
  refine ⟨rfl, ?_⟩
  show rebuildEntries ws.sessions
      (if ro then [] else rebuildEntries ws.sessions
        (if ro then [] else readIndexEntries ws.db) (sortStrings (sessionsOnDisk ws)))
      (sortStrings (sessionsOnDisk ws)) =
    rebuildEntries ws.sessions (if ro then [] else readIndexEntries ws.db)
      (sortStrings (sessionsOnDisk ws))
  cases ro with
  | true => rfl
  | false =>
    show rebuildEntries ws.sessions
        (rebuildEntries ws.sessions (readIndexEntries ws.db)
          (sortStrings (sessionsOnDisk ws)))
        (sortStrings (sessionsOnDisk ws)) =
      rebuildEntries ws.sessions (readIndexEntries ws.db) (sortStrings (sessionsOnDisk ws))
    apply rebuildEntries_fixed
    · exact nodup_keysOf_rebuildEntries hwf.2
    · intro x hx sd hs
      exact alookup_rebuildEntries_mem hids hx hs

/-- Workspace of the C8 witness. -/
def wsC8w : WorkspaceFs :=
  { path := "/s/w8", id := "w8", folder := none, workspace_file := none
    sessions := [("a", some { requests := none, initialLocation := none }), ("b", none)]
    db := some { indexRow := some (IndexRowVal.wellFormed 1
                   [("z", { sessionId := "z", title := "t", lastMessageDate := 0,
                            isImported := false, initialLocation := "panel",
                            isEmpty := true })])
                 otherData := 6 }
    backups := [] }

/-- Run instants for the C8 witness. -/
def tC8a : Timestamp := ⟨2026, 7, 8, 9, 10, 11⟩

/-- Second run instant for the C8 witness. -/
def tC8b : Timestamp := ⟨2026, 7, 8, 9, 10, 12⟩

/-- Witness for C8 at a concrete workspace. -/
theorem C8_repair_idempotent_witness :
    (repair_workspace ((repair_workspace wsC8w false false tC8a).2) false false tC8b).1.success
        = true ∧
    readIndexEntries
        ((repair_workspace ((repair_workspace wsC8w false false tC8a).2)
          false false tC8b).2).db =
      readIndexEntries ((repair_workspace wsC8w false false tC8a).2).db :=
  C8_repair_idempotent wsC8w
    { indexRow := some (IndexRowVal.wellFormed 1
        [("z", { sessionId := "z", title := "t", lastMessageDate := 0,
                 isImported := false, initialLocation := "panel", isEmpty := true })])
      otherData := 6 }
    false tC8a tC8b ⟨by decide, by decide⟩ rfl

end FixChatHistory
